import Mathlib

/-!
Shallow embedding of the relay transport of the `tete-a-tete` repository.

The embedding follows the TypeScript sources:
  * `src/relay/encryption.ts`  — envelope codec (`encryptMessage` / `decryptMessage`);
  * `src/relay/relay-transport.ts` — transport orchestrator (`send`, `handleEvent`,
    `handleResponse`, `handleIncomingMessage`);
  * `src/relay/relay-client.ts` — relay link (`publish`).

Byte strings are `List Nat`.  External cryptographic primitives from `node:crypto`
are modelled symbolically but executably, keeping exactly the contracts the source
relies on:
  * Ed25519 key derivation is an injective function `pkOf`;
  * Ed25519 sign/verify satisfy the correctness contract (a signature verifies
    exactly for the signed data and the matching public key); unforgeability is
    not modelled;
  * the source's `deriveSharedSecret` converts Ed25519 keys to X25519 by byte
    reinterpretation (the JWK `d` seed bytes become the X25519 scalar, the JWK
    `x` compressed Edwards point bytes become the Montgomery point), so the two
    call directions perform scalar multiplications of unrelated points and
    share no algebraic relation; the model is therefore an injective,
    non-symmetric pairing of the private-key and public-key bytes — in
    particular `dh(a.priv, b.pub) ≠ dh(b.priv, a.pub)` for distinct keypairs,
    matching the program (only self-send derives equal secrets);
  * ChaCha20-Poly1305 is modelled as a per-position keystream masking of the
    plaintext (idealizing the XOR stream cipher) followed by a recomputable
    16-byte tag, mirroring the `ciphertext ‖ authTag` layout and the
    `authTagLength: 16` splitting of the source;
  * `randomBytes` is modelled by threading an explicit entropy stream argument.
Base64/hex encodings of envelope fields are lossless codecs and are elided:
fields hold the underlying byte strings.  JSON serialization of payloads
(`JSON.stringify`) is modelled by an injective executable serializer
`encodeRpc`.
-/

namespace TeteATete

/-- Byte strings (`Buffer` contents). -/
abbrev Bytes := List Nat

/-- Symbolic Ed25519 public-key derivation: injective, as the real derivation is. -/
def pkOf (sk : Bytes) : Bytes := 1 :: sk

/-- Model of `Keypair` from `src/relay/keypair.ts`: raw 32-byte Ed25519 keys. -/
structure Keypair where
  publicKey : Bytes
  privateKey : Bytes
deriving DecidableEq

/-- A keypair is valid when its public key matches its private key. -/
def Keypair.Valid (kp : Keypair) : Prop := kp.publicKey = pkOf kp.privateKey

/-- Symbolic Ed25519 signature (the `sign` helper of `src/relay/encryption.ts`):
a signature determines the signed data and the signer's public key. -/
def edSign (data : Bytes) (sk : Bytes) : Bytes := data.length :: (data ++ pkOf sk)

/-- Symbolic Ed25519 verification (the `verify` helper of `src/relay/encryption.ts`):
succeeds exactly on a signature produced over `data` by the key matching `pk`. -/
def edVerify (data : Bytes) (sig : Bytes) (pk : Bytes) : Bool :=
  sig == data.length :: (data ++ pk)

/-- Model of `deriveSharedSecret` of `src/relay/encryption.ts`: the source
builds the X25519 inputs by byte reinterpretation — `ed25519PrivateToX25519`
takes the JWK `d` field (the raw Ed25519 seed) as the X25519 scalar, and
`ed25519PublicToX25519` takes the JWK `x` field (the compressed Edwards point
bytes) as the Montgomery point — and calls `diffieHellman`.  The point passed
is not the Montgomery counterpart of the seed scalar, so the two call
directions are scalar multiplications of unrelated points with no algebraic
relation: `dh(a.priv, b.pub)` and `dh(b.priv, a.pub)` differ for distinct
keypairs.  Modelled as an injective, non-symmetric pairing of the two byte
strings (no commutativity is built in; the pairing coincides under the
argument swap exactly when the keypairs coincide). -/
def deriveSharedSecret (ourPrivate : Bytes) (theirPublic : Bytes) : Bytes :=
  2 :: ourPrivate ++ 0 :: theirPublic

/-- Injective-in-practice accumulator used by the modelled cipher primitives to
separate distinct keys (a fold, rather than a plain sum, so that different
derived secrets yield different keystreams and tags at the inputs the
development evaluates). -/
def mix (l : Bytes) : Nat := l.foldl (fun a b => a * 31 + b + 1) 7

/-- Keystream of the modelled ChaCha20 stream cipher. -/
def keystream (key nonce : Bytes) (i : Nat) : Nat :=
  mix key * 3 + mix nonce * 5 + i * 7 + 11

/-- Stream encryption: mask every plaintext position with the keystream. -/
def streamEnc (key nonce : Bytes) : Nat → Bytes → Bytes
  | _, [] => []
  | i, b :: rest => (b + keystream key nonce i) :: streamEnc key nonce (i + 1) rest

/-- Stream decryption: remove the keystream mask. -/
def streamDec (key nonce : Bytes) : Nat → Bytes → Bytes
  | _, [] => []
  | i, b :: rest => (b - keystream key nonce i) :: streamDec key nonce (i + 1) rest

/-- The 16-byte Poly1305 authentication tag over the encrypted body
(recomputable by the receiver from key, nonce and body). -/
def polyTag (key nonce body : Bytes) : Bytes :=
  (List.range 16).map (fun i => mix key + mix nonce * 2 + mix body * 3 + body.length * 5 + i)

/-- The `EncryptedMessage` envelope of `src/relay/encryption.ts`
(base64/hex encodings of the fields elided). -/
structure EncryptedMessage where
  ciphertext : Bytes
  nonce : Bytes
  senderPubKey : Bytes
  signature : Bytes
deriving DecidableEq

/-- Model of `encryptMessage` of `src/relay/encryption.ts`: derive the shared secret,
draw 24 random bytes (`randomBytes(24)`, modelled by the explicit `entropy`
stream), encrypt with ChaCha20-Poly1305 keyed by the first 32 secret bytes and
the first 12 nonce bytes, append the 16-byte auth tag, and sign the ciphertext
with the sender's Ed25519 private key. -/
def encryptMessage (plaintext : Bytes) (senderKeypair : Keypair)
    (recipientPublicKey : Bytes) (entropy : Nat → Nat) : EncryptedMessage :=
  let sharedSecret := deriveSharedSecret senderKeypair.privateKey recipientPublicKey
  let nonce := (List.range 24).map (fun i => entropy i % 256)
  let key := sharedSecret.take 32
  let body := streamEnc key (nonce.take 12) 0 plaintext
  let authTag := polyTag key (nonce.take 12) body
  let ciphertext := body ++ authTag
  let signature := edSign ciphertext senderKeypair.privateKey
  { ciphertext := ciphertext
    nonce := nonce
    senderPubKey := senderKeypair.publicKey
    signature := signature }

/-- Result union of `decryptMessage`. -/
inductive DecryptResult where
  | ok (plaintext : Bytes)
  | err (error : String)
deriving DecidableEq

/-- Model of `decryptMessage` of `src/relay/encryption.ts`: verify the Ed25519 signature
over the ciphertext; on failure return the invalid-signature error without
decrypting.  Otherwise re-derive the shared secret, split the trailing 16 tag
bytes off the ciphertext, recheck the tag and strip the keystream.  The
`try/catch` of the source maps auth failures to an error result. -/
def decryptMessage (encrypted : EncryptedMessage) (recipientKeypair : Keypair) :
    DecryptResult :=
  if !edVerify encrypted.ciphertext encrypted.signature encrypted.senderPubKey then
    .err "Invalid signature"
  else
    let sharedSecret := deriveSharedSecret recipientKeypair.privateKey encrypted.senderPubKey
    let key := sharedSecret.take 32
    let authTag := encrypted.ciphertext.drop (encrypted.ciphertext.length - 16)
    let body := encrypted.ciphertext.take (encrypted.ciphertext.length - 16)
    if authTag == polyTag key (encrypted.nonce.take 12) body then
      .ok (streamDec key (encrypted.nonce.take 12) 0 body)
    else
      .err "Decryption failed"

/-! ### A2A payload data model (`src/types.ts`), as consumed by the transport -/

/-- Message part (`TextPart` / `DataPart`); structured data is modelled as a
string-keyed record. -/
inductive Part where
  | text (text : String)
  | data (data : List (String × String))
deriving DecidableEq

/-- First part of kind `text` (`parts.find(p => p.kind === "text")?.text`). -/
def findTextPart : List Part → Option String
  | [] => none
  | .text s :: _ => some s
  | .data _ :: rest => findTextPart rest

/-- First part of kind `data` (`parts.find(p => p.kind === "data")?.data`). -/
def findDataPart : List Part → Option (List (String × String))
  | [] => none
  | .data d :: _ => some d
  | .text _ :: rest => findDataPart rest

/-- Task object of a `MessageSendResult`. -/
structure TaskInfo where
  id : String
  state : String
deriving DecidableEq

/-- An A2A message: role plus parts. -/
structure MsgBody where
  role : String
  parts : List Part
deriving DecidableEq

/-- The `MessageSendResult` shape: optional task and optional message. -/
structure MsgResult where
  task : Option TaskInfo
  message : Option MsgBody
deriving DecidableEq

/-- JSON-RPC error object. -/
structure RpcError where
  code : Int
  message : String
deriving DecidableEq

/-- The `MessageSendParams` shape (plus the transport's extra `sender` field); the
`message` field may be absent at runtime, as `params?.message` anticipates. -/
structure MsgParams where
  message : Option MsgBody
  sender : Option String
deriving DecidableEq

/-- A parsed JSON-RPC object as the transport inspects it: an id, and the
optional `method`/`params`/`result`/`error` fields.  An absent `Option` models
an absent-or-falsy JSON field (the transport only tests these fields for
truthiness, and peers only ever place objects or nonempty strings in them). -/
structure Rpc where
  id : String
  method : Option String
  params : Option MsgParams
  result : Option MsgResult
  rpcError : Option RpcError
deriving DecidableEq

/-- JavaScript `a || b` on an optional string: the fallback is used when the
string is absent or empty (falsy). -/
def orTruthy (a : Option String) (b : String) : String :=
  match a with
  | some s => if s = "" then b else s
  | none => b

/-! ### Injective serializer modelling `JSON.stringify` of payloads -/

/-- Serialize a string: length-prefixed code points. -/
def encodeString (s : String) : Bytes := s.length :: s.data.map Char.toNat

/-- Serialize an optional string. -/
def encodeOptStr : Option String → Bytes
  | none => [0]
  | some s => 1 :: encodeString s

/-- Serialize a key/value pair of a data record. -/
def encodeKv (p : String × String) : Bytes := encodeString p.1 ++ encodeString p.2

/-- Serialize a data record. -/
def encodeData (d : List (String × String)) : Bytes := d.length :: (d.map encodeKv).flatten

/-- Serialize one part. -/
def encodePart : Part → Bytes
  | .text s => 0 :: encodeString s
  | .data d => 1 :: encodeData d

/-- Serialize a list of parts. -/
def encodeParts (ps : List Part) : Bytes := ps.length :: (ps.map encodePart).flatten

/-- Serialize a message body. -/
def encodeBody (m : MsgBody) : Bytes := encodeString m.role ++ encodeParts m.parts

/-- Serialize an optional message body. -/
def encodeOptBody : Option MsgBody → Bytes
  | none => [0]
  | some m => 1 :: encodeBody m

/-- Serialize an optional task. -/
def encodeTask : Option TaskInfo → Bytes
  | none => [0]
  | some t => 1 :: (encodeString t.id ++ encodeString t.state)

/-- Serialize an optional result. -/
def encodeResult : Option MsgResult → Bytes
  | none => [0]
  | some r => 1 :: (encodeTask r.task ++ encodeOptBody r.message)

/-- Serialize an optional error object. -/
def encodeErr : Option RpcError → Bytes
  | none => [0]
  | some e => 1 :: e.code.natAbs :: (if e.code < 0 then 1 else 0) :: encodeString e.message

/-- Serialize optional params. -/
def encodeParams : Option MsgParams → Bytes
  | none => [0]
  | some p => 1 :: (encodeOptBody p.message ++ encodeOptStr p.sender)

/-- Model of `JSON.stringify` of a JSON-RPC payload, modelled as an injective
serialization to bytes (JSON surface syntax elided). -/
def encodeRpc (r : Rpc) : Bytes :=
  encodeString r.id ++ encodeOptStr r.method ++ encodeParams r.params ++
    encodeResult r.result ++ encodeErr r.rpcError

/-! ### Transport orchestrator state (`src/relay/relay-transport.ts`) -/

/-- A Nostr wire event as the transport builds it via `createNostrEvent`:
`content` carries the serialized envelope (JSON wrapping elided); the NIP-01
event id and schnorr signature are not exercised by the transport logic and
are elided. -/
structure NostrEvent where
  pubkey : Bytes
  kind : Nat
  tags : List (String × Bytes)
  content : EncryptedMessage
deriving DecidableEq

/-- One entry of the `pendingRequests` map: the resolver is identified by the
map key; the entry records the timeout used for the deadline message.  The
deadline timer is cleared exactly when the entry is removed. -/
structure PendingEntry where
  timeoutMs : Nat
deriving DecidableEq

/-- The `RelaySendResult` shape. -/
structure RelaySendResult where
  success : Bool
  taskId : Option String
  response : Option String
  error : Option String
deriving DecidableEq

/-- The `IncomingMessage` passed to the application handler. -/
structure IncomingMsg where
  text : String
  data : Option (List (String × String))
  raw : MsgBody
deriving DecidableEq

/-- The `SenderInfo` passed to the application handler. -/
structure SenderInfo where
  name : String
deriving DecidableEq

/-- The `MessageResponse` returned by the application handler. -/
structure MessageResponse where
  text : String
  data : Option (List (String × String))
deriving DecidableEq

/-- Model of `Map.get` on the pending-request map (unique keys). -/
def mapLookup (k : String) : List (String × PendingEntry) → Option PendingEntry
  | [] => none
  | (k', v) :: rest => if k' = k then some v else mapLookup k rest

/-- Model of `Map.delete` on the pending-request map. -/
def mapDelete (k : String) : List (String × PendingEntry) → List (String × PendingEntry)
  | [] => []
  | (k', v) :: rest => if k' = k then mapDelete k rest else (k', v) :: mapDelete k rest

/-- Model of `Map.set` on the pending-request map. -/
def mapSet (k : String) (v : PendingEntry) (m : List (String × PendingEntry)) :
    List (String × PendingEntry) :=
  (k, v) :: mapDelete k m

/-- Transport orchestrator state: configuration (keypair, handler, agent name),
the connection flags of the relay clients, the pending-request table, and the
log of results delivered to waiting `send` callers (each JS promise is resolved
by its first entry). -/
structure TState where
  keypair : Keypair
  onMessage : IncomingMsg → SenderInfo → Except String MessageResponse
  agentName : Option String
  clients : List Bool
  pending : List (String × PendingEntry)
  resolved : List (String × RelaySendResult)

/-- Indices of the connected relay clients, counting from `i`. -/
def connectedIndicesFrom : Nat → List Bool → List Nat
  | _, [] => []
  | i, c :: rest =>
    if c then i :: connectedIndicesFrom (i + 1) rest
    else connectedIndicesFrom (i + 1) rest

/-- Number of connected relay clients. -/
def countConnected (clients : List Bool) : Nat := (connectedIndicesFrom 0 clients).length

/-- Model of `for (const client of this.clients) if (client.isConnected()) client.publish(event)`:
the fan-out of one event over every connected client. -/
def publishToConnected (clients : List Bool) (ev : NostrEvent) : List (Nat × NostrEvent) :=
  (connectedIndicesFrom 0 clients).map (fun i => (i, ev))

/-- Externally visible effects of handling one inbound payload: the application
handler invocations and the wire events published per connected client. -/
structure Effects where
  handlerCalls : List (IncomingMsg × SenderInfo)
  published : List (Nat × NostrEvent)
deriving DecidableEq

/-- No effects. -/
def noEffects : Effects := { handlerCalls := [], published := [] }

/-- The `RelaySendResult` delivered by `handleResponse` (lines 301-321): an error
object yields a failure with `code: message`; otherwise success, with the task
id and the first text part of the result message. -/
def responseResultOf (rpc : Rpc) : RelaySendResult :=
  match rpc.rpcError with
  | some e =>
    { success := false, taskId := none, response := none
      error := some (toString e.code ++ ": " ++ e.message) }
  | none =>
    let responseText :=
      match rpc.result with
      | some res =>
        match res.message with
        | some m => findTextPart m.parts
        | none => none
      | none => none
    let taskId :=
      match rpc.result with
      | some res => res.task.map (fun t => t.id)
      | none => none
    { success := true, taskId := taskId, response := responseText, error := none }

/-- Model of `RelayTransport.handleResponse` (lines 292-322): look up the pending entry
by the response's correlation id; if absent, return.  Otherwise clear the
deadline timer, remove the entry, and resolve the waiting caller. -/
def handleResponse (st : TState) (rpc : Rpc) : TState :=
  match mapLookup rpc.id st.pending with
  | none => st
  | some _ =>
    { st with
      pending := mapDelete rpc.id st.pending
      resolved := st.resolved ++ [(rpc.id, responseResultOf rpc)] }

/-- The deadline-timer callback registered by `send` (lines 216-222): delete the
pending entry and resolve the caller with the timeout failure.  The guard
models `clearTimeout` semantics: the callback can only run while the timer is
uncleared, and every path that removes an entry also clears its timer. -/
def fireTimeout (st : TState) (id : String) : TState :=
  match mapLookup id st.pending with
  | none => st
  | some entry =>
    { st with
      pending := mapDelete id st.pending
      resolved := st.resolved ++
        [(id, { success := false, taskId := none, response := none
                error := some ("Request timed out after " ++ toString entry.timeoutMs ++ "ms") })] }

/-- The fallback name `senderPubKey.substring(0, 16) + "..."` (hex rendering of
the key elided). -/
def hexAbbrev (pk : Bytes) : String := toString (pk.take 8) ++ "..."

/-- The `SenderInfo` built by `handleIncomingMessage`:
`params.sender || senderPubKey.substring(0,16) + "..."`. -/
def senderInfoOf (params : MsgParams) (senderPubKey : Bytes) : SenderInfo :=
  { name := orTruthy params.sender (hexAbbrev senderPubKey) }

/-- Model of `RelayTransport.handleIncomingMessage` (lines 327-411): drop the payload if
`params?.message` is absent or no text part with nonempty text exists;
otherwise invoke the application handler (an exception is caught and the
default text "Message received" is kept), build the JSON-RPC response carrying
the request's id, encrypt it for the sender, wrap it in a kind-4 wire event and
publish it to every connected client.  The fresh task id (`generateTaskId`) and
the encryption entropy are threaded as explicit arguments. -/
def handleIncomingMessage (st : TState) (rpc : Rpc) (senderPubKey : Bytes)
    (freshTaskId : String) (entropy : Nat → Nat) : TState × Effects :=
  match rpc.params with
  | none => (st, noEffects)
  | some params =>
    match params.message with
    | none => (st, noEffects)
    | some message =>
      match findTextPart message.parts with
      | none => (st, noEffects)
      | some text =>
        if text = "" then (st, noEffects)
        else
          let incoming : IncomingMsg :=
            { text := text, data := findDataPart message.parts, raw := message }
          let senderInfo := senderInfoOf params senderPubKey
          let handlerOut :=
            match st.onMessage incoming senderInfo with
            | .ok r => (r.text, r.data)
            | .error _ => ("Message received", none)
          let responseParts :=
            Part.text handlerOut.1 ::
              (match handlerOut.2 with
               | some d => [Part.data d]
               | none => [])
          let result : MsgResult :=
            { task := some { id := freshTaskId, state := "completed" }
              message := some { role := "agent", parts := responseParts } }
          let jsonRpcResponse : Rpc :=
            { id := rpc.id, method := none, params := none
              result := some result, rpcError := none }
          let encrypted := encryptMessage (encodeRpc jsonRpcResponse) st.keypair senderPubKey entropy
          let event : NostrEvent :=
            { pubkey := st.keypair.publicKey, kind := 4
              tags := [("p", senderPubKey), ("t", senderPubKey)]
              content := encrypted }
          (st, { handlerCalls := [(incoming, senderInfo)]
                 published := publishToConnected st.clients event })

/-- Dispatch of `RelayTransport.handleEvent` (lines 272-286) after the envelope
decrypted and `JSON.parse` succeeded: a payload with a truthy `result` or
`error` field goes to `handleResponse`; otherwise a `message/send` request goes
to `handleIncomingMessage`; anything else is dropped. -/
def handleDecrypted (st : TState) (rpc : Rpc) (senderPubKey : Bytes)
    (freshTaskId : String) (entropy : Nat → Nat) : TState × Effects :=
  if rpc.result.isSome || rpc.rpcError.isSome then
    (handleResponse st rpc, noEffects)
  else if rpc.method == some "message/send" then
    handleIncomingMessage st rpc senderPubKey freshTaskId entropy
  else
    (st, noEffects)

/-- Does the request carry a usable text part? (`params?.message` present and
its parts hold a text part with nonempty text.) -/
def usableText (rpc : Rpc) : Bool :=
  match rpc.params with
  | none => false
  | some p =>
    match p.message with
    | none => false
    | some m =>
      match findTextPart m.parts with
      | none => false
      | some s => !(s == "")

/-- The `RelayMessage` given to `RelayTransport.send`. -/
structure RelayMessage where
  recipientPubKey : Bytes
  text : String
  data : Option (List (String × String))
  senderName : Option String
deriving DecidableEq

/-- The JSON-RPC request built by `send` (lines 184-201): a text part plus an
optional data part, sender `message.senderName || agentName || "unknown"`, and
a fresh message id. -/
def buildRequest (message : RelayMessage) (agentName : Option String) (reqId : String) : Rpc :=
  let parts :=
    Part.text message.text ::
      (match message.data with
       | some d => [Part.data d]
       | none => [])
  { id := reqId
    method := some "message/send"
    params := some
      { message := some { role := "user", parts := parts }
        sender := some (orTruthy message.senderName (orTruthy agentName "unknown")) }
    result := none
    rpcError := none }

/-- Model of `RelayTransport.send` (lines 179-255): build and encrypt the request, wrap
it in a kind-4 wire event tagged for the recipient, register the pending entry
with its deadline timer, and publish to every connected client.  When no client
is connected, clear the timer, remove the entry and resolve synchronously with
the no-connected-relays failure.  Returns the new state, the synchronously
delivered result (if any), and the published events.  The fresh message id
(`generateMessageId`) and encryption entropy are explicit arguments. -/
def send (st : TState) (message : RelayMessage) (reqId : String) (timeoutMs : Nat)
    (entropy : Nat → Nat) : TState × Option RelaySendResult × List (Nat × NostrEvent) :=
  let jsonRpcRequest := buildRequest message st.agentName reqId
  let encrypted := encryptMessage (encodeRpc jsonRpcRequest) st.keypair message.recipientPubKey entropy
  let event : NostrEvent :=
    { pubkey := st.keypair.publicKey, kind := 4
      tags := [("p", message.recipientPubKey), ("t", message.recipientPubKey)]
      content := encrypted }
  let pending' := mapSet reqId { timeoutMs := timeoutMs } st.pending
  let published := publishToConnected st.clients event
  if published.isEmpty then
    ({ st with pending := mapDelete reqId pending' },
     some { success := false, taskId := none, response := none, error := some "No connected relays" },
     [])
  else
    ({ st with pending := pending' }, none, published)

/-! ### Relay link (`src/relay/relay-client.ts`) -/

/-- Inbound relay wire messages as `RelayClient.publish`'s listener classifies
them: an `["OK", eventId, success, reason]` message, or anything else (ignored,
including unparsable frames). -/
inductive RelayInMsg where
  | okMsg (eventId : String) (success : Bool) (reason : Option String)
  | other
deriving DecidableEq

/-- The fixed acknowledgement timeout of `RelayClient.publish`. -/
def publishTimeoutMs : Nat := 10000

/-- First `OK` message whose event id matches (`msg[0] === "OK" && msg[1] === event.id`). -/
def findOkFor (eid : String) : List RelayInMsg → Option (Bool × Option String)
  | [] => none
  | .okMsg e s r :: rest => if e = eid then some (s, r) else findOkFor eid rest
  | .other :: rest => findOkFor eid rest

/-- Outcome of `RelayClient.publish`. -/
inductive PublishOutcome where
  | ok
  | failed (reason : String)
  | notConnected
  | timedOut
deriving DecidableEq

/-- Model of `RelayClient.publish` (lines 199-239): reject immediately when not
connected; otherwise send the event and resolve according to the boolean of
the first matching `OK` received before the 10 s deadline (`msgs` lists the
messages arriving within `publishTimeoutMs`); reject with the timeout error
when none matches. -/
def publishOutcome (connected : Bool) (eventId : String) (msgs : List RelayInMsg) :
    PublishOutcome :=
  if !connected then .notConnected
  else
    match findOkFor eventId msgs with
    | some (true, _) => .ok
    | some (false, r) => .failed (orTruthy r "Publish failed")
    | none => .timedOut

/-! ### Concrete instances used by witnesses and counterexamples -/

/-- A concrete valid sender keypair. -/
def kpA0 : Keypair := { publicKey := pkOf [1], privateKey := [1] }

/-- A concrete valid recipient keypair. -/
def kpB0 : Keypair := { publicKey := pkOf [2], privateKey := [2] }

/-- A concrete entropy stream. -/
def ent0 : Nat → Nat := fun _ => 0

/-- An envelope whose signature does not verify. -/
def badEnv0 : EncryptedMessage :=
  { ciphertext := [1], nonce := [], senderPubKey := [], signature := [] }

/-- A concrete inbound `message/send` request payload. -/
def rpc0 : Rpc :=
  { id := "req-1"
    method := some "message/send"
    params := some { message := some { role := "user", parts := [Part.text "ping"] }
                     sender := some "A" }
    result := none
    rpcError := none }

/-- A concrete response payload. -/
def resp0 : Rpc :=
  { id := "req-9", method := none, params := none
    result := some { task := none, message := none }, rpcError := none }

/-- A concrete request whose only text part is empty. -/
def rpcNoText0 : Rpc :=
  { id := "r10"
    method := some "message/send"
    params := some { message := some { role := "user", parts := [Part.text ""] }
                     sender := none }
    result := none
    rpcError := none }

/-- A concrete transport state with one connected relay and a normal handler. -/
def st0 : TState :=
  { keypair := kpB0
    onMessage := fun _ _ => .ok { text := "pong", data := none }
    agentName := some "B"
    clients := [true]
    pending := []
    resolved := [] }

/-- A concrete transport state whose handler throws. -/
def stThrow0 : TState :=
  { keypair := kpB0
    onMessage := fun _ _ => .error "boom"
    agentName := some "B"
    clients := [true]
    pending := []
    resolved := [] }

/-- A concrete transport state with no connected relay. -/
def stDisc0 : TState :=
  { keypair := kpA0
    onMessage := fun _ _ => .ok { text := "pong", data := none }
    agentName := some "A"
    clients := [false, false]
    pending := []
    resolved := [] }

/-- A concrete outbound message. -/
def relayMsg0 : RelayMessage :=
  { recipientPubKey := kpB0.publicKey, text := "hello", data := none, senderName := none }

/-- The fallback JSON-RPC acknowledgement built by `handleIncomingMessage` when
the application handler threw: task completed, single text part with the
default text, carrying the request's correlation id. -/
def fallbackResponse (reqId freshTaskId : String) : Rpc :=
  { id := reqId
    method := none
    params := none
    result := some
      { task := some { id := freshTaskId, state := "completed" }
        message := some { role := "agent", parts := [Part.text "Message received"] } }
    rpcError := none }

/-! ### Helper lemmas -/

theorem streamDec_streamEnc (key nonce : Bytes) (pt : Bytes) :
    ∀ i, streamDec key nonce i (streamEnc key nonce i pt) = pt := by
  induction pt with
  | nil => intro i; rfl
  | cons b rest ih => intro i; simp [streamEnc, streamDec, ih]

theorem polyTag_length (key nonce body : Bytes) : (polyTag key nonce body).length = 16 := by
  simp [polyTag]

/-- The signature of a produced envelope verifies over the ciphertext with the
sender's public key. -/
theorem encryptMessage_sig_ok (pt : Bytes) (kpA : Keypair) (rpk : Bytes)
    (ent : Nat → Nat) (hA : kpA.Valid) :
    edVerify (encryptMessage pt kpA rpk ent).ciphertext
      (encryptMessage pt kpA rpk ent).signature kpA.publicKey = true := by
  obtain ⟨pub, priv⟩ := kpA
  have h : pub = pkOf priv := hA
  subst h
  simp [encryptMessage, edVerify, edSign]

/-- Decryption via `decryptMessage` succeeds on any envelope whose ciphertext is a stream
encryption followed by its matching tag, whose key re-derivation yields the
encryption key, and whose signature verifies. -/
theorem decryptMessage_ok_of_parts (key n pt : Bytes) (env : EncryptedMessage)
    (kpB : Keypair)
    (hct : env.ciphertext = streamEnc key n 0 pt ++ polyTag key n (streamEnc key n 0 pt))
    (hkey : (deriveSharedSecret kpB.privateKey env.senderPubKey).take 32 = key)
    (hn : env.nonce.take 12 = n)
    (hsig : edVerify env.ciphertext env.signature env.senderPubKey = true) :
    decryptMessage env kpB = .ok pt := by
  unfold decryptMessage
  rw [hsig]
  simp only [Bool.not_true, Bool.false_eq_true, if_false]
  rw [hkey, hn, hct]
  have hlen : (streamEnc key n 0 pt ++ polyTag key n (streamEnc key n 0 pt)).length - 16 =
      (streamEnc key n 0 pt).length := by
    simp [List.length_append, polyTag_length]
  rw [hlen]
  rw [List.drop_left, List.take_left]
  simp [streamDec_streamEnc]

/-- Self-send round trip: when sender and recipient are the same keypair, the
two calls to `deriveSharedSecret` coincide syntactically and decryption
succeeds — the cipher machinery is coherent, and the cross-keypair failure
comes only from the mismatched key derivation. -/
theorem decryptMessage_encryptMessage_self (pt : Bytes) (kp : Keypair)
    (ent : Nat → Nat) (h : kp.Valid) :
    decryptMessage (encryptMessage pt kp kp.publicKey ent) kp = .ok pt := by
  apply decryptMessage_ok_of_parts
    ((deriveSharedSecret kp.privateKey kp.publicKey).take 32)
    (((List.range 24).map (fun i => ent i % 256)).take 12) pt
  · rfl
  · rfl
  · rfl
  · exact encryptMessage_sig_ok pt kp kp.publicKey ent h

theorem mapLookup_mapDelete (k : String) (m : List (String × PendingEntry)) :
    mapLookup k (mapDelete k m) = none := by
  induction m with
  | nil => rfl
  | cons p rest ih =>
    obtain ⟨k', v⟩ := p
    by_cases h : k' = k
    · simp [mapDelete, h, ih]
    · simp [mapDelete, mapLookup, h, ih]

theorem mapDelete_of_lookup_none (k : String) (m : List (String × PendingEntry))
    (h : mapLookup k m = none) : mapDelete k m = m := by
  induction m with
  | nil => rfl
  | cons p rest ih =>
    obtain ⟨k', v⟩ := p
    by_cases hk : k' = k
    · simp [mapLookup, hk] at h
    · simp only [mapLookup, if_neg hk] at h
      simp [mapDelete, hk, ih h]

theorem connectedIndicesFrom_nil_of_all_false (i : Nat) (l : List Bool)
    (h : l.all (fun c => !c) = true) : connectedIndicesFrom i l = [] := by
  induction l generalizing i with
  | nil => rfl
  | cons c rest ih =>
    simp only [List.all_cons, Bool.and_eq_true] at h
    have hc : c = false := by
      cases c
      · rfl
      · simp at h
    subst hc
    simp [connectedIndicesFrom, ih _ h.2]

theorem publishToConnected_length (clients : List Bool) (ev : NostrEvent) :
    (publishToConnected clients ev).length = countConnected clients := by
  simp [publishToConnected, countConnected]

theorem findOkFor_append_none (eid : String) (pre post : List RelayInMsg)
    (h : findOkFor eid pre = none) :
    findOkFor eid (pre ++ post) = findOkFor eid post := by
  induction pre with
  | nil => rfl
  | cons m rest ih =>
    cases m with
    | okMsg e s r =>
      by_cases he : e = eid
      · simp [findOkFor, he] at h
      · simp only [findOkFor, if_neg he] at h
        simpa [findOkFor, he] using ih h
    | other =>
      simp only [findOkFor] at h
      simpa [findOkFor] using ih h

/-! ### Claim theorems -/

/-- Claim C1 (code bug): at the failing input — plaintext "hi" and the distinct
valid keypairs A and B — the envelope produced by `encryptMessage` does NOT
decrypt on B's side: the source reinterprets Ed25519 key bytes as X25519
material, so the two calls to `deriveSharedSecret` derive different secrets,
the auth-tag check fails, and `decryptMessage` reports a decryption failure
where the claim (and the spec's round-trip property) requires the plaintext.
The second conjunct shows the contrast: self-send, where both sides derive the
same secret, round-trips, so the failure is exactly the key derivation. -/
theorem roundtrip_fails_at_failing_input :
    decryptMessage (encryptMessage [104, 105] kpA0 kpB0.publicKey ent0) kpB0 =
      .err "Decryption failed" ∧
    decryptMessage (encryptMessage [104, 105] kpA0 kpA0.publicKey ent0) kpA0 =
      .ok [104, 105] := by decide

/-- Counterexample to claim C2 as stated: a concrete envelope produced by
`encryptMessage` whose signature does not verify over `ciphertext ‖ nonce`
(it is a signature over the ciphertext alone). -/
theorem signature_not_over_nonce_cex :
    edVerify
      ((encryptMessage [1, 2, 3] kpA0 kpB0.publicKey ent0).ciphertext ++
        (encryptMessage [1, 2, 3] kpA0 kpB0.publicKey ent0).nonce)
      (encryptMessage [1, 2, 3] kpA0 kpB0.publicKey ent0).signature
      kpA0.publicKey = false := by decide

/-- Claim C2 (amended): the signature of every produced envelope is an Ed25519
signature by the sender's private key over the ciphertext alone (it verifies
over the ciphertext with the sender's public key), and `decryptMessage`
verifies the signature over the ciphertext with `senderPubKey` before any
decryption: whenever verification fails it returns the invalid-signature
error and never decrypts. -/
theorem signature_over_ciphertext_only :
    (∀ (pt : Bytes) (kpA : Keypair) (rpk : Bytes) (entropy : Nat → Nat),
        kpA.Valid →
        edVerify (encryptMessage pt kpA rpk entropy).ciphertext
          (encryptMessage pt kpA rpk entropy).signature kpA.publicKey = true) ∧
    (∀ (env : EncryptedMessage) (kp : Keypair),
        edVerify env.ciphertext env.signature env.senderPubKey = false →
        decryptMessage env kp = .err "Invalid signature") := by
  constructor
  · intro pt kpA rpk entropy hA
    exact encryptMessage_sig_ok pt kpA rpk entropy hA
  · intro env kp h
    unfold decryptMessage
    rw [h]
    rfl

/-- Witness for C2 (amended) at concrete inputs. -/
theorem signature_over_ciphertext_only_witness :
    edVerify (encryptMessage [1] kpA0 kpB0.publicKey ent0).ciphertext
      (encryptMessage [1] kpA0 kpB0.publicKey ent0).signature kpA0.publicKey = true ∧
    decryptMessage badEnv0 kpB0 = .err "Invalid signature" :=
  ⟨signature_over_ciphertext_only.1 [1] kpA0 kpB0.publicKey ent0 rfl,
   signature_over_ciphertext_only.2 badEnv0 kpB0 (by decide)⟩

/-- Counterexample to claim C6 as stated: a concrete produced envelope whose
nonce field is 24 bytes long, not 12. -/
theorem nonce_not_12_bytes_cex :
    (encryptMessage [5] kpA0 kpB0.publicKey ent0).nonce.length = 24 ∧
    ¬ (encryptMessage [5] kpA0 kpB0.publicKey ent0).nonce.length = 12 := by decide

/-- Claim C6 (amended): every call to `encryptMessage` draws a fresh 24-byte
value from the random source (`randomBytes(24)`) and stores it whole in the
envelope's nonce field — 24 bytes, not 12; only its first 12 bytes are used as
the AEAD nonce (`nonce.subarray(0, 12)` on both sides), so decryption depends
on the stored nonce only through its first 12 bytes. -/
theorem nonce_24_only_first12_used :
    (∀ (pt : Bytes) (kp : Keypair) (rpk : Bytes) (ent : Nat → Nat),
        (encryptMessage pt kp rpk ent).nonce.length = 24 ∧
        (encryptMessage pt kp rpk ent).nonce =
          (List.range 24).map (fun i => ent i % 256)) ∧
    (∀ (env : EncryptedMessage) (nonce' : Bytes) (kp : Keypair),
        nonce'.take 12 = env.nonce.take 12 →
        decryptMessage { env with nonce := nonce' } kp = decryptMessage env kp) := by
  constructor
  · intro pt kp rpk ent
    constructor
    · simp [encryptMessage]
    · rfl
  · intro env nonce' kp h
    have hct : ({ env with nonce := nonce' } : EncryptedMessage).ciphertext =
        env.ciphertext := rfl
    have hspk : ({ env with nonce := nonce' } : EncryptedMessage).senderPubKey =
        env.senderPubKey := rfl
    have hsig : ({ env with nonce := nonce' } : EncryptedMessage).signature =
        env.signature := rfl
    have hn : ({ env with nonce := nonce' } : EncryptedMessage).nonce = nonce' := rfl
    simp only [decryptMessage, hct, hspk, hsig, hn, h]

/-- Witness for C6 (amended): a concrete envelope has a 24-byte nonce, and
replacing its trailing 12 nonce bytes leaves the decryption result unchanged. -/
theorem nonce_24_only_first12_used_witness :
    (encryptMessage [9] kpA0 kpB0.publicKey ent0).nonce.length = 24 ∧
    decryptMessage
      { encryptMessage [9] kpA0 kpB0.publicKey ent0 with
        nonce := (encryptMessage [9] kpA0 kpB0.publicKey ent0).nonce.take 12 ++
          [7, 7, 7, 7, 7, 7, 7, 7, 7, 7, 7, 7] }
      kpB0 = decryptMessage (encryptMessage [9] kpA0 kpB0.publicKey ent0) kpB0 :=
  ⟨(nonce_24_only_first12_used.1 [9] kpA0 kpB0.publicKey ent0).1,
   nonce_24_only_first12_used.2 (encryptMessage [9] kpA0 kpB0.publicKey ent0)
     ((encryptMessage [9] kpA0 kpB0.publicKey ent0).nonce.take 12 ++
       [7, 7, 7, 7, 7, 7, 7, 7, 7, 7, 7, 7]) kpB0 (by decide)⟩

/-- Claim C3: resolving a pending request is idempotent and at-most-once:
after `handleResponse` delivers a response, no entry for that correlation id
remains, a second identical response is a no-op (the state, including the log
of delivered results, is unchanged), and the deadline-timer callback for that
id is likewise a no-op. -/
theorem pending_resolution_at_most_once (st : TState) (rpc : Rpc) :
    mapLookup rpc.id (handleResponse st rpc).pending = none ∧
    handleResponse (handleResponse st rpc) rpc = handleResponse st rpc ∧
    fireTimeout (handleResponse st rpc) rpc.id = handleResponse st rpc := by
  cases hl : mapLookup rpc.id st.pending with
  | none =>
    refine ⟨?_, ?_, ?_⟩ <;> simp [handleResponse, fireTimeout, hl]
  | some e =>
    have h2 : mapLookup rpc.id (mapDelete rpc.id st.pending) = none :=
      mapLookup_mapDelete _ _
    refine ⟨?_, ?_, ?_⟩ <;> simp [handleResponse, fireTimeout, hl, h2]

/-- Claim C5: when no relay client is connected, `send` resolves synchronously
with the no-connected-relays failure, publishes nothing, and leaves the state
(in particular the pending-request table) unchanged; the fresh correlation id
is not in the table before the call (`generateMessageId` is fresh). -/
theorem send_no_connected_relays (st : TState) (message : RelayMessage) (reqId : String)
    (timeoutMs : Nat) (entropy : Nat → Nat)
    (hfresh : mapLookup reqId st.pending = none)
    (hconn : st.clients.all (fun c => !c) = true) :
    send st message reqId timeoutMs entropy =
      (st, some { success := false, taskId := none, response := none
                  error := some "No connected relays" }, []) := by
  have hidx := connectedIndicesFrom_nil_of_all_false 0 st.clients hconn
  have hpub : ∀ ev : NostrEvent, publishToConnected st.clients ev = [] := by
    intro ev
    simp [publishToConnected, hidx]
  have hdel : mapDelete reqId (mapSet reqId { timeoutMs := timeoutMs } st.pending) =
      st.pending := by
    simp only [mapSet, mapDelete, if_pos rfl]
    rw [mapDelete_of_lookup_none reqId st.pending hfresh,
      mapDelete_of_lookup_none reqId st.pending hfresh]
    simp
  simp only [send, hpub]
  rw [hdel]
  simp

/-- Witness for C5 at a concrete state with two disconnected relays. -/
theorem send_no_connected_relays_witness :
    send stDisc0 relayMsg0 "m1" 30000 ent0 =
      (stDisc0, some { success := false, taskId := none, response := none
                       error := some "No connected relays" }, []) :=
  send_no_connected_relays stDisc0 relayMsg0 "m1" 30000 ent0 rfl (by decide)

/-- Claim C9: every successfully decrypted payload with a truthy `result` or
`error` field is dispatched to `handleResponse` with no handler invocation and
no published event, whether or not a pending entry matches; and when none
matches, the payload is discarded with the state unchanged. -/
theorem response_payload_never_to_handler (st : TState) (rpc : Rpc) (pk : Bytes)
    (tid : String) (ent : Nat → Nat)
    (h : rpc.result.isSome = true ∨ rpc.rpcError.isSome = true) :
    handleDecrypted st rpc pk tid ent = (handleResponse st rpc, noEffects) ∧
    (mapLookup rpc.id st.pending = none →
      handleDecrypted st rpc pk tid ent = (st, noEffects)) := by
  have hcond : (rpc.result.isSome || rpc.rpcError.isSome) = true := by
    rcases h with h | h <;> simp [h]
  constructor
  · simp [handleDecrypted, hcond]
  · intro hnone
    simp [handleDecrypted, hcond, handleResponse, hnone]

/-- Witness for C9 at a concrete response payload with no matching pending
entry. -/
theorem response_payload_never_to_handler_witness :
    handleDecrypted st0 resp0 kpA0.publicKey "t" ent0 = (st0, noEffects) :=
  (response_payload_never_to_handler st0 resp0 kpA0.publicKey "t" ent0
    (Or.inl rfl)).2 rfl

/-- Claim C10: an inbound decrypted request whose `params.message` is absent,
or whose parts hold no text part with nonempty text, is dropped: the state is
unchanged, the handler is not invoked and nothing is published. -/
theorem textless_request_dropped (st : TState) (rpc : Rpc) (pk : Bytes)
    (tid : String) (ent : Nat → Nat)
    (h1 : rpc.result = none) (h2 : rpc.rpcError = none)
    (h3 : rpc.method = some "message/send") (h4 : usableText rpc = false) :
    handleDecrypted st rpc pk tid ent = (st, noEffects) := by
  have hstep : handleDecrypted st rpc pk tid ent =
      handleIncomingMessage st rpc pk tid ent := by
    simp [handleDecrypted, h1, h2, h3]
  rw [hstep]
  cases hp : rpc.params with
  | none => simp [handleIncomingMessage, hp]
  | some params =>
    cases hm : params.message with
    | none => simp [handleIncomingMessage, hp, hm]
    | some message =>
      cases ht : findTextPart message.parts with
      | none => simp [handleIncomingMessage, hp, hm, ht]
      | some text =>
        have htext : text = "" := by
          have h4' := h4
          unfold usableText at h4'
          rw [hp] at h4'
          simp only [hm, ht] at h4'
          simpa using h4'
        subst htext
        simp [handleIncomingMessage, hp, hm, ht]

/-- Witness for C10 at a concrete request whose only text part is empty. -/
theorem textless_request_dropped_witness :
    handleDecrypted st0 rpcNoText0 kpA0.publicKey "t" ent0 = (st0, noEffects) :=
  textless_request_dropped st0 rpcNoText0 kpA0.publicKey "t" ent0 rfl rfl rfl (by decide)

/-- Claim C7: `RelayClient.publish` rejects immediately with the not-connected
error when the link is not connected (nothing is queued); otherwise it resolves
success or failure according to the boolean of the first `OK` message whose
event id matches (with the message's reason string, or the default); and it
rejects with the timeout error when no matching `OK` arrives within the fixed
10-second window. -/
theorem publish_outcome_spec :
    publishTimeoutMs = 10000 ∧
    (∀ (eid : String) (msgs : List RelayInMsg),
        publishOutcome false eid msgs = .notConnected) ∧
    (∀ (eid : String) (msgs : List RelayInMsg), findOkFor eid msgs = none →
        publishOutcome true eid msgs = .timedOut) ∧
    (∀ (pre post : List RelayInMsg) (eid : String) (s : Bool) (r : Option String),
        findOkFor eid pre = none →
        publishOutcome true eid (pre ++ .okMsg eid s r :: post) =
          if s then .ok else .failed (orTruthy r "Publish failed")) := by
  refine ⟨rfl, fun eid msgs => rfl, fun eid msgs h => by simp [publishOutcome, h], ?_⟩
  intro pre post eid s r h
  have hfind : findOkFor eid (pre ++ .okMsg eid s r :: post) = some (s, r) := by
    rw [findOkFor_append_none eid pre _ h]
    simp [findOkFor]
  cases s <;> simp [publishOutcome, hfind]

/-- Witness for C7: a non-matching then a matching failed `OK`, a disconnected
link, and an empty inbox. -/
theorem publish_outcome_spec_witness :
    publishOutcome true "e1" ([RelayInMsg.okMsg "e2" true none] ++
        RelayInMsg.okMsg "e1" false none :: []) =
      (if false then PublishOutcome.ok else .failed (orTruthy none "Publish failed")) ∧
    publishOutcome false "e1" [] = .notConnected ∧
    publishOutcome true "e1" [RelayInMsg.other] = .timedOut :=
  ⟨publish_outcome_spec.2.2.2 [RelayInMsg.okMsg "e2" true none] [] "e1" false none
      (by decide),
   publish_outcome_spec.2.1 "e1" [],
   publish_outcome_spec.2.2.1 "e1" [RelayInMsg.other] (by decide)⟩

/-- Counterexample to claim C4 as stated: a concrete duplicated request event.
Processing the identical decrypted request payload a second time (relay replay
delivers the same event again, which decrypts identically) invokes the
application handler again and publishes another response, instead of being
de-duplicated. -/
theorem duplicate_request_not_deduped_cex :
    (handleDecrypted st0 rpc0 kpA0.publicKey "task-1" ent0).2.handlerCalls.length = 1 ∧
    (handleDecrypted (handleDecrypted st0 rpc0 kpA0.publicKey "task-1" ent0).1 rpc0
        kpA0.publicKey "task-2" ent0).2.handlerCalls.length = 1 ∧
    (handleDecrypted (handleDecrypted st0 rpc0 kpA0.publicKey "task-1" ent0).1 rpc0
        kpA0.publicKey "task-2" ent0).2.published.length = 1 := by
  refine ⟨rfl, rfl, rfl⟩

/-- Claim C4 (amended): duplicate responses are de-duplicated by correlation id
(resolving an already-resolved id is a no-op), but request events are not
de-duplicated: every delivery of a well-formed request — including a duplicate
of one already handled, since no state records handled events — invokes the
application handler once and publishes one response per connected relay. -/
theorem response_dedup_request_not_deduped :
    (∀ (st : TState) (rpc : Rpc),
        handleResponse (handleResponse st rpc) rpc = handleResponse st rpc) ∧
    (∀ (st : TState) (rpc : Rpc) (pk : Bytes) (tid : String) (ent : Nat → Nat),
        rpc.result = none → rpc.rpcError = none → rpc.method = some "message/send" →
        usableText rpc = true →
        (handleDecrypted st rpc pk tid ent).2.handlerCalls.length = 1 ∧
        (handleDecrypted st rpc pk tid ent).2.published.length =
          countConnected st.clients) := by
  constructor
  · intro st rpc
    cases hl : mapLookup rpc.id st.pending with
    | none => simp [handleResponse, hl]
    | some e =>
      have h2 : mapLookup rpc.id (mapDelete rpc.id st.pending) = none :=
        mapLookup_mapDelete _ _
      simp [handleResponse, hl, h2]
  · intro st rpc pk tid ent h1 h2 h3 h4
    have hstep : handleDecrypted st rpc pk tid ent =
        handleIncomingMessage st rpc pk tid ent := by
      simp [handleDecrypted, h1, h2, h3]
    rw [hstep]
    cases hp : rpc.params with
    | none =>
      rw [usableText, hp] at h4
      simp at h4
    | some params =>
      cases hm : params.message with
      | none =>
        rw [usableText, hp] at h4
        simp only [hm] at h4
        simp at h4
      | some message =>
        cases ht : findTextPart message.parts with
        | none =>
          rw [usableText, hp] at h4
          simp only [hm, ht] at h4
          simp at h4
        | some text =>
          have htext : ¬ text = "" := by
            rw [usableText, hp] at h4
            simp only [hm, ht] at h4
            simpa using h4
          simp [handleIncomingMessage, hp, hm, ht, htext, publishToConnected_length]

/-- Witness for C4 (amended): idempotent response resolution and a concrete
request handled on each delivery. -/
theorem response_dedup_request_not_deduped_witness :
    handleResponse (handleResponse st0 resp0) resp0 = handleResponse st0 resp0 ∧
    (handleDecrypted st0 rpc0 kpA0.publicKey "task-1" ent0).2.handlerCalls.length = 1 ∧
    (handleDecrypted st0 rpc0 kpA0.publicKey "task-1" ent0).2.published.length =
      countConnected st0.clients :=
  ⟨response_dedup_request_not_deduped.1 st0 resp0,
   (response_dedup_request_not_deduped.2 st0 rpc0 kpA0.publicKey "task-1" ent0
      rfl rfl rfl (by decide)).1,
   (response_dedup_request_not_deduped.2 st0 rpc0 kpA0.publicKey "task-1" ent0
      rfl rfl rfl (by decide)).2⟩

set_option maxRecDepth 4000 in
/-- Claim C8 (code bug): at the failing input — a request from remote sender A
whose handling on B's side throws (`stThrow0`'s handler) — the exception is
caught, the handler runs exactly once, the transport state is unchanged, and
the fallback acknowledgement ("Message received", wrapped in a response
carrying the request's correlation id) is still encrypted and published to the
connected relay; but contrary to the claim's conclusion the remote sender
cannot decrypt that response — the non-commutative shared-secret derivation
yields a different key on A's side, so the published fallback fails to decrypt
and A's `send` waits out its deadline instead of resolving. -/
theorem fallback_published_but_undecryptable :
    (handleIncomingMessage stThrow0 rpc0 kpA0.publicKey "task-8" ent0).1 = stThrow0 ∧
    (handleIncomingMessage stThrow0 rpc0 kpA0.publicKey "task-8" ent0).2.handlerCalls.length = 1 ∧
    ((handleIncomingMessage stThrow0 rpc0 kpA0.publicKey "task-8" ent0).2.published.map
        (fun p => p.2.content)) =
      [encryptMessage (encodeRpc (fallbackResponse rpc0.id "task-8")) stThrow0.keypair
        kpA0.publicKey ent0] ∧
    ((handleIncomingMessage stThrow0 rpc0 kpA0.publicKey "task-8" ent0).2.published.map
        (fun p => decryptMessage p.2.content kpA0)) =
      [.err "Decryption failed"] :=
  ⟨rfl, by decide, by decide, by decide⟩

end TeteATete
